import Mathlib

/-!
Shallow embedding of the Go-Back-N protocol simulator (GoBackNsim.py).

Modelling conventions:
* Channel-level timestamps (send times, arrival times, burst offsets) are
  natural numbers measured in fifths of a second: every timestamp produced by
  the program is `tick + k * 0.2 + delay` with integer `tick` and `delay`, so
  all of them lie on the exact 0.2-second grid.  One burst-offset step
  (`burst_offset += 0.2` in the source) is `1` in this unit; a driver tick `t`
  (whole seconds) is `5 * t`; a configured propagation delay `d` is `5 * d`.
* The driver's `current_time` and the sender's `timeout` stay in whole seconds,
  exactly as in the source (`check_timer` only ever compares whole seconds).
* `timer_start` and `last_ack_sent` use the source's `-1` sentinel, so they are
  integers.
* The sender's `buffer` dict is modelled as a function `Nat → Option Packet`
  (the source only ever reads and writes single keys, never iterates).
  A read of a missing key raises `KeyError` in Python; the retransmission loop
  therefore returns `Option`, with `none` for that failure.
* GUI rendering, logging, wall-clock scheduling (`root.after`) and the STOP
  button are presentation-layer concerns and are not part of the embedding;
  `simulation_tick` is the pure per-second logic step.
-/

namespace GBN

/-- `Packet` class: type is the string "DATA" or "ACK", plus a sequence
number and an optional payload. -/
structure Packet where
  type : String
  seq_num : Nat
  data : Option String
deriving DecidableEq

/-- One in-flight channel entry: the tuple
`(arrival_time, packet, destination, send_time)` appended by
`Channel.send_to_network`.  Times are in fifths of a second. -/
structure InFlight where
  arrival_time : Nat
  packet : Packet
  destination : String
  send_time : Nat
deriving DecidableEq

/-- `Channel` state: the two one-shot loss lists, the propagation delay
(in fifths of a second), and the in-flight queue. -/
structure Channel where
  loss_data : List Nat
  loss_ack : List Nat
  delay : Nat
  packet_queue : List InFlight
deriving DecidableEq

/-- `Sender` state.  `timer_start` is `-1` when the timer is off. -/
structure Sender where
  window_size : Nat
  total_packets : Nat
  timeout : Nat
  base : Nat
  next_seq : Nat
  buffer : Nat → Option Packet
  timer_start : Int
  retransmissions : Nat
  duplicate_pkts : Nat

/-- `Receiver` state.  `last_ack_sent` is `-1` before any ACK was sent. -/
structure Receiver where
  expected_seq : Nat
  delivered_count : Nat
  last_ack_sent : Int
deriving DecidableEq

/-- The driver state of `GbnSimulator` that the logic loop touches:
the tick counter (whole seconds), the finishing flag, and the three
protocol entities. -/
structure Sim where
  current_time : Nat
  is_finishing : Bool
  sender : Sender
  receiver : Receiver
  channel : Channel

/-- `Channel.send_to_network`: drop the packet if its sequence number is in
the loss list matching its kind (consuming that entry), otherwise enqueue it
with `send_time = current_time + offset` and
`arrival_time = send_time + delay`.  Returns the updated channel and the
status string "DROP" or "SENT".  `current_time` and `offset` are in fifths
of a second. -/
def send_to_network (ch : Channel) (packet : Packet) (destination : String)
    (current_time : Nat) (offset : Nat) : Channel × String :=
  let dropCh : Bool × Channel :=
    if packet.type = "DATA" then
      if packet.seq_num ∈ ch.loss_data then
        (true, { ch with loss_data := ch.loss_data.erase packet.seq_num })
      else (false, ch)
    else if packet.type = "ACK" then
      if packet.seq_num ∈ ch.loss_ack then
        (true, { ch with loss_ack := ch.loss_ack.erase packet.seq_num })
      else (false, ch)
    else (false, ch)
  if dropCh.1 then (dropCh.2, "DROP")
  else
    let send_time := current_time + offset
    let arrival_time := send_time + ch.delay
    ({ ch with packet_queue :=
        ch.packet_queue ++ [⟨arrival_time, packet, destination, send_time⟩] },
     "SENT")

/-- `Channel.get_delivered_packets`: split the queue into the items whose
arrival time has passed (returned, in queue order) and the rest (kept). -/
def get_delivered_packets (ch : Channel) (current_time : Nat) :
    List InFlight × Channel :=
  let delivered := ch.packet_queue.filter (fun item => current_time ≥ item.arrival_time)
  let keep := ch.packet_queue.filter (fun item => ¬ current_time ≥ item.arrival_time)
  (delivered, { ch with packet_queue := keep })

/-- `Sender.check_timer`: the timer is off while the window is empty;
otherwise it has expired when `current_time - timer_start ≥ timeout`
(whole seconds). -/
def check_timer (snd : Sender) (current_time : Nat) : Bool :=
  if snd.base = snd.next_seq then false
  else decide ((current_time : Int) - snd.timer_start ≥ (snd.timeout : Int))

/-- Write one key of the buffer dict (`self.sender.buffer[seq] = pkt`). -/
def store (buf : Nat → Option Packet) (k : Nat) (p : Packet) :
    Nat → Option Packet :=
  fun j => if j = k then some p else buf j

/-- The payload string `f"Payload_{seq}"` attached to each DATA packet. -/
def payload_of (seq : Nat) : Option String :=
  some ("Payload_" ++ toString seq)

/-- The body of the arrival loop in `process_channel_only`: dispatch one
arrived item to the receiver (DATA) or the sender (ACK), threading the
`(receiver, sender, channel)` state.  `now` is the driver tick in whole
seconds (used for the sender's timer reset); ACKs emitted by the receiver
are anchored at the item's fractional `arrival_time`. -/
def process_arrival (now : Nat) (st : Receiver × Sender × Channel)
    (item : InFlight) : Receiver × Sender × Channel :=
  let rcv := st.1
  let snd := st.2.1
  let ch := st.2.2
  let pkt := item.packet
  if item.destination = "Receiver" ∧ pkt.type = "DATA" then
    if pkt.seq_num = rcv.expected_seq then
      let rcv' : Receiver :=
        { rcv with delivered_count := rcv.delivered_count + 1,
                   expected_seq := rcv.expected_seq + 1,
                   last_ack_sent := (pkt.seq_num : Int) }
      let ack : Packet := ⟨"ACK", pkt.seq_num, none⟩
      let ch' := (send_to_network ch ack "Sender" item.arrival_time 0).1
      (rcv', snd, ch')
    else if pkt.seq_num < rcv.expected_seq then
      (rcv, snd, ch)
    else
      if 0 < rcv.expected_seq then
        let last_ack := rcv.expected_seq - 1
        if rcv.last_ack_sent = (last_ack : Int) then
          (rcv, snd, ch)
        else
          let rcv' : Receiver := { rcv with last_ack_sent := (last_ack : Int) }
          let ack : Packet := ⟨"ACK", last_ack, none⟩
          let ch' := (send_to_network ch ack "Sender" item.arrival_time 0).1
          (rcv', snd, ch')
      else (rcv, snd, ch)
  else if item.destination = "Sender" ∧ pkt.type = "ACK" then
    if pkt.seq_num ≥ snd.base then
      let snd' : Sender := { snd with base := pkt.seq_num + 1 }
      let snd'' : Sender :=
        if snd'.base < snd'.next_seq then
          { snd' with timer_start := (now : Int) }
        else
          { snd' with timer_start := -1 }
      (rcv, snd'', ch)
    else (rcv, snd, ch)
  else (rcv, snd, ch)

/-- `GbnSimulator.process_channel_only`: drain the channel at the current
tick and dispatch every arrived item in queue order. -/
def process_channel_only (sim : Sim) : Sim :=
  let dr := get_delivered_packets sim.channel (5 * sim.current_time)
  let st := dr.1.foldl (process_arrival sim.current_time)
      (sim.receiver, sim.sender, dr.2)
  { sim with receiver := st.1, sender := st.2.1, channel := st.2.2 }

/-- The retransmission loop of the timeout branch: for each `seq` in order,
increment `duplicate_pkts`, read `buffer[seq]` (a missing key is Python's
`KeyError`, modelled as `none`), and offer the packet to the channel with
the running burst offset. -/
def retransmit_loop (now : Nat) :
    List Nat → Nat → Channel × Sender → Option (Channel × Sender)
  | [], _, st => some st
  | seq :: rest, off, st =>
    let snd : Sender := { st.2 with duplicate_pkts := st.2.duplicate_pkts + 1 }
    match snd.buffer seq with
    | none => none
    | some pkt =>
      let ch := (send_to_network st.1 pkt "Receiver" (5 * now) off).1
      retransmit_loop now rest (off + 1) (ch, snd)

/-- The sender-timeout branch of `simulation_tick`: bump `retransmissions`,
reset `timer_start`, then resend the whole window `[base, next_seq)` with
burst offsets 0, 1, 2, … (fifths of a second). -/
def on_timeout (now : Nat) (ch : Channel) (snd : Sender) :
    Option (Channel × Sender) :=
  let snd' : Sender :=
    { snd with retransmissions := snd.retransmissions + 1,
               timer_start := (now : Int) }
  retransmit_loop now (List.range' snd'.base (snd'.next_seq - snd'.base)) 0 (ch, snd')

/-- The new-packet burst loop of `simulation_tick`: while the window is not
full and packets remain, buffer and send `next_seq`, starting the timer
when the window was empty, with the running burst offset.  The loop's fuel
is explicit so that the definition is structurally recursive: one packet is
sent per unit of fuel, and the loop sends at most
`totalPackets - nextSeq` packets. -/
def fill_window_go (now : Nat) :
    Nat → Nat → Channel → Sender → Channel × Sender
  | 0, _, ch, snd => (ch, snd)
  | fuel + 1, off, ch, snd =>
    if snd.next_seq < snd.base + snd.window_size ∧
        snd.next_seq < snd.total_packets then
      fill_window_go now fuel (off + 1)
        (send_to_network ch ⟨"DATA", snd.next_seq, payload_of snd.next_seq⟩
          "Receiver" (5 * now) off).1
        { snd with
          buffer := store snd.buffer snd.next_seq
            ⟨"DATA", snd.next_seq, payload_of snd.next_seq⟩,
          timer_start :=
            if snd.base = snd.next_seq then (now : Int) else snd.timer_start,
          next_seq := snd.next_seq + 1 }
    else (ch, snd)

/-- The new-packet burst of `simulation_tick`, started with exactly enough
fuel for the remaining packets. -/
def fill_window (now : Nat) (off : Nat) (ch : Channel) (snd : Sender) :
    Channel × Sender :=
  fill_window_go now (snd.total_packets - snd.next_seq) off ch snd

/-- `GbnSimulator.simulation_tick`: one run of the per-second logic loop.
If everything is acknowledged, mark the run as finishing and only move
existing channel traffic; otherwise run the timeout check, the new-packet
burst, and the arrival processing.  Returns `none` exactly when the
retransmission loop would raise `KeyError`. -/
def simulation_tick (sim : Sim) : Option Sim :=
  if sim.sender.base = sim.sender.total_packets then
    let sim1 : Sim :=
      if ¬ sim.is_finishing then { sim with is_finishing := true } else sim
    let sim2 := process_channel_only sim1
    some { sim2 with current_time := sim2.current_time + 1 }
  else
    let afterTimeout : Option (Channel × Sender) :=
      if check_timer sim.sender sim.current_time then
        on_timeout sim.current_time sim.channel sim.sender
      else some (sim.channel, sim.sender)
    match afterTimeout with
    | none => none
    | some (ch, snd) =>
      let fw := fill_window sim.current_time 0 ch snd
      let sim1 : Sim := { sim with channel := fw.1, sender := fw.2 }
      let sim2 := process_channel_only sim1
      some { sim2 with current_time := sim2.current_time + 1 }

/-- A validated configuration (§6 of the spec): counts and loss lists as
read by `start_sim`.  `delay` is in whole seconds here. -/
structure Config where
  total_packets : Nat
  window_size : Nat
  timeout : Nat
  delay : Nat
  loss_data : List Nat
  loss_ack : List Nat

/-- `start_sim`: construct the initial `Channel`, `Sender` and `Receiver`
from a configuration and reset the clock. -/
def start_sim (c : Config) : Sim :=
  { current_time := 0
    is_finishing := false
    sender :=
      { window_size := c.window_size
        total_packets := c.total_packets
        timeout := c.timeout
        base := 0
        next_seq := 0
        buffer := fun _ => none
        timer_start := -1
        retransmissions := 0
        duplicate_pkts := 0 }
    receiver := { expected_seq := 0, delivered_count := 0, last_ack_sent := -1 }
    channel :=
      { loss_data := c.loss_data
        loss_ack := c.loss_ack
        delay := 5 * c.delay
        packet_queue := [] } }

/-- The state after `n` ticks of the driver loop, `none` if some tick
failed. -/
def run (c : Config) : Nat → Option Sim
  | 0 => some (start_sim c)
  | n + 1 => (run c n).bind simulation_tick

/-! Specification-side definitions (following the spec's words), used to
characterise the source-level loops. -/

/-- Sequentially offer a list of `(packet, burst offset)` pairs to the
channel, all anchored at the same send instant `now5` and bound for the
same destination. -/
def spec_offer_list (now5 : Nat) (dest : String) :
    List (Packet × Nat) → Channel → Channel
  | [], ch => ch
  | po :: rest, ch =>
      spec_offer_list now5 dest rest (send_to_network ch po.1 dest now5 po.2).1

/-- The offers a timeout event makes (spec §4.2 `onTimeout`): the buffered
packet of each listed sequence number, with burst offsets increasing by one
step per packet. -/
def spec_burst_offers (buf : Nat → Option Packet) :
    Nat → List Nat → List (Packet × Nat)
  | _, [] => []
  | off, k :: rest =>
      ((buf k).getD ⟨"DATA", 0, none⟩, off) :: spec_burst_offers buf (off + 1) rest

/-- The offers `fillWindow` makes (spec §4.8): fresh DATA packets for `n`
consecutive sequence numbers starting at `start`, with burst offsets
increasing by one step per packet starting at `off`. -/
def spec_fill_offers : Nat → Nat → Nat → List (Packet × Nat)
  | _, 0, _ => []
  | start, n + 1, off =>
      (⟨"DATA", start, payload_of start⟩, off) :: spec_fill_offers (start + 1) n (off + 1)

/-- One channel-offer request: a packet together with its destination and
the send instant and burst offset (both in fifths of a second). -/
structure Offer where
  packet : Packet
  destination : String
  time : Nat
  offset : Nat

/-- Statuses returned by the channel, in order, for the offers in `reqs`
whose packet has the given kind and sequence number, with the channel state
threaded through every offer (matching or not). -/
def statuses_for (kind : String) (seq : Nat) :
    List Offer → Channel → List String
  | [], _ => []
  | r :: rest, ch =>
    let res := send_to_network ch r.packet r.destination r.time r.offset
    if r.packet.type = kind ∧ r.packet.seq_num = seq then
      res.2 :: statuses_for kind seq rest res.1
    else
      statuses_for kind seq rest res.1

/-- How many offers in `reqs` bear the given kind and sequence number. -/
def matches_count (kind : String) (seq : Nat) (reqs : List Offer) : Nat :=
  (reqs.filter (fun r => r.packet.type == kind && r.packet.seq_num == seq)).length

/-- The loss list the channel consults for a packet kind. -/
def loss_of (kind : String) (ch : Channel) : List Nat :=
  if kind = "DATA" then ch.loss_data else ch.loss_ack

/-! The protocol invariant. -/

/-- The part of the invariant threaded through arrival processing:
window ordering, receiver counters, the timer sentinel discipline, and the
bound on every in-flight sequence number. -/
def StInv (st : Receiver × Sender × Channel) : Prop :=
  st.2.1.base ≤ st.2.1.next_seq ∧
  st.1.expected_seq ≤ st.2.1.next_seq ∧
  st.1.delivered_count = st.1.expected_seq ∧
  (st.2.1.timer_start = -1 ↔ st.2.1.base = st.2.1.next_seq) ∧
  (∀ it ∈ st.2.2.packet_queue, it.packet.seq_num < st.2.1.next_seq)

/-- The full invariant of a `(receiver, sender, channel)` triple: `StInv`,
the window bounds `next_seq ≤ total_packets` and
`next_seq ≤ base + window_size`, and the buffer discipline (`buffer` holds
exactly the keys `[0, next_seq)`, each bound to a packet carrying that key
as its sequence number). -/
def InvT (st : Receiver × Sender × Channel) : Prop :=
  StInv st ∧
  st.2.1.next_seq ≤ st.2.1.total_packets ∧
  st.2.1.next_seq ≤ st.2.1.base + st.2.1.window_size ∧
  (∀ k, (st.2.1.buffer k).isSome ↔ k < st.2.1.next_seq) ∧
  (∀ k p, st.2.1.buffer k = some p → p.seq_num = k)

/-- The invariant of a driver state. -/
def Inv (s : Sim) : Prop :=
  InvT (s.receiver, s.sender, s.channel)

/-! Basic channel lemmas. -/

lemma send_delay (ch : Channel) (p : Packet) (d : String) (t o : Nat) :
    (send_to_network ch p d t o).1.delay = ch.delay := by
  unfold send_to_network
  split_ifs <;> rfl

lemma send_queue_mem (ch : Channel) (p : Packet) (d : String) (t o : Nat) :
    ∀ it ∈ (send_to_network ch p d t o).1.packet_queue,
      it ∈ ch.packet_queue ∨ it.packet = p := by
  unfold send_to_network
  split_ifs <;> intro it hit <;> simp at hit <;> try exact Or.inl hit
  all_goals
    rcases hit with hit | hit
    · exact Or.inl hit
    · subst hit; exact Or.inr rfl

lemma send_sent_queue (ch : Channel) (p : Packet) (d : String) (t o : Nat)
    (h : (send_to_network ch p d t o).2 = "SENT") :
    (send_to_network ch p d t o).1.packet_queue =
      ch.packet_queue ++ [⟨t + o + ch.delay, p, d, t + o⟩] := by
  unfold send_to_network at h ⊢
  split_ifs at h ⊢ <;> simp_all

lemma spec_offer_list_delay (n5 : Nat) (d : String) :
    ∀ (l : List (Packet × Nat)) (ch : Channel),
      (spec_offer_list n5 d l ch).delay = ch.delay := by
  intro l
  induction l with
  | nil => intro ch; rfl
  | cons po rest ih =>
    intro ch
    rw [spec_offer_list, ih, send_delay]

lemma spec_offer_list_mem (n5 : Nat) (d : String) :
    ∀ (l : List (Packet × Nat)) (ch : Channel),
      ∀ it ∈ (spec_offer_list n5 d l ch).packet_queue,
        it ∈ ch.packet_queue ∨ ∃ po ∈ l, it.packet = po.1 := by
  intro l
  induction l with
  | nil => intro ch it hit; exact Or.inl hit
  | cons po rest ih =>
    intro ch it hit
    rw [spec_offer_list] at hit
    rcases ih _ it hit with h | ⟨po', hpo', hp⟩
    · rcases send_queue_mem ch po.1 d n5 po.2 it h with h' | h'
      · exact Or.inl h'
      · exact Or.inr ⟨po, List.mem_cons_self po rest, h'⟩
    · exact Or.inr ⟨po', List.mem_cons_of_mem _ hpo', hp⟩

lemma spec_burst_offers_snd (buf : Nat → Option Packet) :
    ∀ (seqs : List Nat) (off : Nat),
      (spec_burst_offers buf off seqs).map Prod.snd = List.range' off seqs.length := by
  intro seqs
  induction seqs with
  | nil => intro off; rfl
  | cons k rest ih =>
    intro off
    rw [spec_burst_offers]
    simp [List.range'_succ, ih]

lemma spec_burst_offers_mem (buf : Nat → Option Packet) :
    ∀ (seqs : List Nat) (off : Nat),
      ∀ po ∈ spec_burst_offers buf off seqs,
        ∃ k ∈ seqs, po.1 = (buf k).getD ⟨"DATA", 0, none⟩ := by
  intro seqs
  induction seqs with
  | nil => intro off po hpo; simp [spec_burst_offers] at hpo
  | cons k rest ih =>
    intro off po hpo
    rw [spec_burst_offers] at hpo
    rcases List.mem_cons.mp hpo with hpo | hpo
    · subst hpo; exact ⟨k, List.mem_cons_self k rest, rfl⟩
    · rcases ih _ po hpo with ⟨k', hk', h⟩
      exact ⟨k', List.mem_cons_of_mem _ hk', h⟩

lemma spec_fill_offers_mem :
    ∀ (n start off : Nat), ∀ po ∈ spec_fill_offers start n off,
      ∃ i, i < n ∧ po = (⟨"DATA", start + i, payload_of (start + i)⟩, off + i) := by
  intro n
  induction n with
  | zero => intro start off po hpo; simp [spec_fill_offers] at hpo
  | succ m ih =>
    intro start off po hpo
    rw [spec_fill_offers] at hpo
    rcases List.mem_cons.mp hpo with hpo | hpo
    · exact ⟨0, Nat.succ_pos m, by simpa using hpo⟩
    · rcases ih (start + 1) (off + 1) po hpo with ⟨i, hi, hp⟩
      refine ⟨i + 1, by omega, ?_⟩
      rw [hp]
      simp [Nat.add_assoc, Nat.add_comm 1 i]

/-! Characterisation of the two sending loops. -/

lemma retransmit_spec (now : Nat) :
    ∀ (seqs : List Nat) (off : Nat) (ch : Channel) (snd : Sender),
      (∀ k ∈ seqs, (snd.buffer k).isSome) →
      retransmit_loop now seqs off (ch, snd) =
        some (spec_offer_list (5 * now) "Receiver"
                (spec_burst_offers snd.buffer off seqs) ch,
              { snd with duplicate_pkts := snd.duplicate_pkts + seqs.length }) := by
  intro seqs
  induction seqs with
  | nil =>
    intro off ch snd _
    simp [retransmit_loop, spec_burst_offers, spec_offer_list]
  | cons k rest ih =>
    intro off ch snd h
    have hk : (snd.buffer k).isSome := h k (List.mem_cons_self k rest)
    obtain ⟨pkt, hpkt⟩ := Option.isSome_iff_exists.mp hk
    simp only [retransmit_loop, hpkt]
    rw [ih (off + 1) _ { snd with duplicate_pkts := snd.duplicate_pkts + 1 }
        (fun k' hk' => h k' (List.mem_cons_of_mem _ hk'))]
    rw [spec_burst_offers, spec_offer_list, hpkt]
    simp only [Option.getD_some, List.length_cons]
    have h2 : snd.duplicate_pkts + 1 + rest.length =
        snd.duplicate_pkts + (rest.length + 1) := by omega
    rw [h2]

/-- The window target of `fillWindow`: sending stops at the window edge or
at the last packet, whichever is nearer, and never moves `next_seq`
backwards. -/
def fillTarget (snd : Sender) : Nat :=
  max snd.next_seq (min (snd.base + snd.window_size) snd.total_packets)

lemma fill_window_go_spec (now : Nat) :
    ∀ (fuel off : Nat) (ch : Channel) (snd : Sender),
      snd.total_packets - snd.next_seq = fuel → snd.base ≤ snd.next_seq →
      (fill_window_go now fuel off ch snd).2.window_size = snd.window_size ∧
      (fill_window_go now fuel off ch snd).2.total_packets = snd.total_packets ∧
      (fill_window_go now fuel off ch snd).2.timeout = snd.timeout ∧
      (fill_window_go now fuel off ch snd).2.base = snd.base ∧
      (fill_window_go now fuel off ch snd).2.retransmissions = snd.retransmissions ∧
      (fill_window_go now fuel off ch snd).2.duplicate_pkts = snd.duplicate_pkts ∧
      (fill_window_go now fuel off ch snd).2.next_seq = fillTarget snd ∧
      (∀ k, (fill_window_go now fuel off ch snd).2.buffer k =
        if snd.next_seq ≤ k ∧ k < fillTarget snd then
          some ⟨"DATA", k, payload_of k⟩
        else snd.buffer k) ∧
      (fill_window_go now fuel off ch snd).2.timer_start =
        (if snd.base = snd.next_seq ∧ snd.next_seq < fillTarget snd then
          (now : Int) else snd.timer_start) ∧
      (fill_window_go now fuel off ch snd).1 =
        spec_offer_list (5 * now) "Receiver"
          (spec_fill_offers snd.next_seq (fillTarget snd - snd.next_seq) off) ch := by
  intro fuel
  induction fuel with
  | zero =>
    intro off ch snd hf _
    have hm : fillTarget snd = snd.next_seq := by
      unfold fillTarget; omega
    rw [fill_window_go]
    refine ⟨rfl, rfl, rfl, rfl, rfl, rfl, by rw [hm], ?_, ?_, ?_⟩
    · intro k
      rw [hm, if_neg (by omega)]
    · rw [hm, if_neg (by omega)]
    · rw [hm]
      simp [spec_fill_offers, spec_offer_list]
  | succ fuel ih =>
    intro off ch snd hf hb
    by_cases hguard : snd.next_seq < snd.base + snd.window_size ∧
        snd.next_seq < snd.total_packets
    · rw [fill_window_go, if_pos hguard]
      specialize ih (off + 1)
        (send_to_network ch ⟨"DATA", snd.next_seq, payload_of snd.next_seq⟩
          "Receiver" (5 * now) off).1
        { snd with
          buffer := store snd.buffer snd.next_seq
            ⟨"DATA", snd.next_seq, payload_of snd.next_seq⟩,
          timer_start :=
            if snd.base = snd.next_seq then (now : Int) else snd.timer_start,
          next_seq := snd.next_seq + 1 }
        (by dsimp only; omega) (by dsimp only; omega)
      dsimp only at ih
      obtain ⟨ihw, ihtot, ihto, ihbase, ihretr, ihdup, ihnext, ihbuf, ihts, ihch⟩ := ih
      have hm : fillTarget { snd with
          buffer := store snd.buffer snd.next_seq ⟨"DATA", snd.next_seq, payload_of snd.next_seq⟩,
          timer_start := if snd.base = snd.next_seq then (now : Int) else snd.timer_start,
          next_seq := snd.next_seq + 1 } = fillTarget snd := by
        unfold fillTarget; dsimp only; omega
      have hmge : snd.next_seq + 1 ≤ fillTarget snd := by
        unfold fillTarget; omega
      rw [hm] at ihnext ihbuf ihts ihch
      refine ⟨by rw [ihw], by rw [ihtot], by rw [ihto], by rw [ihbase],
        by rw [ihretr], by rw [ihdup], by rw [ihnext], ?_, ?_, ?_⟩
      · intro k
        rw [ihbuf k]
        simp only [store]
        split_ifs <;> try rfl
        all_goals try omega
        all_goals simp_all
      · rw [ihts]
        split_ifs <;> omega
      · rw [ihch]
        have hn : fillTarget snd - snd.next_seq =
            (fillTarget snd - (snd.next_seq + 1)) + 1 := by omega
        rw [hn, spec_fill_offers, spec_offer_list]
    · rw [fill_window_go, if_neg hguard]
      have hm : fillTarget snd = snd.next_seq := by
        unfold fillTarget; omega
      refine ⟨rfl, rfl, rfl, rfl, rfl, rfl, by rw [hm], ?_, ?_, ?_⟩
      · intro k
        rw [hm, if_neg (by omega)]
      · rw [hm, if_neg (by omega)]
      · rw [hm]
        simp [spec_fill_offers, spec_offer_list]

lemma fill_window_spec (now : Nat) :
    ∀ (off : Nat) (ch : Channel) (snd : Sender), snd.base ≤ snd.next_seq →
      (fill_window now off ch snd).2.window_size = snd.window_size ∧
      (fill_window now off ch snd).2.total_packets = snd.total_packets ∧
      (fill_window now off ch snd).2.timeout = snd.timeout ∧
      (fill_window now off ch snd).2.base = snd.base ∧
      (fill_window now off ch snd).2.retransmissions = snd.retransmissions ∧
      (fill_window now off ch snd).2.duplicate_pkts = snd.duplicate_pkts ∧
      (fill_window now off ch snd).2.next_seq = fillTarget snd ∧
      (∀ k, (fill_window now off ch snd).2.buffer k =
        if snd.next_seq ≤ k ∧ k < fillTarget snd then
          some ⟨"DATA", k, payload_of k⟩
        else snd.buffer k) ∧
      (fill_window now off ch snd).2.timer_start =
        (if snd.base = snd.next_seq ∧ snd.next_seq < fillTarget snd then
          (now : Int) else snd.timer_start) ∧
      (fill_window now off ch snd).1 =
        spec_offer_list (5 * now) "Receiver"
          (spec_fill_offers snd.next_seq (fillTarget snd - snd.next_seq) off) ch := by
  intro off ch snd hb
  unfold fill_window
  exact fill_window_go_spec now (snd.total_packets - snd.next_seq) off ch snd rfl hb

/-! Branch lemmas for `process_arrival`, one per code path of the arrival
loop in `process_channel_only`. -/

lemma pa_else (now : Nat) (st : Receiver × Sender × Channel) (item : InFlight)
    (h1 : ¬ (item.destination = "Receiver" ∧ item.packet.type = "DATA"))
    (h2 : ¬ (item.destination = "Sender" ∧ item.packet.type = "ACK")) :
    process_arrival now st item = st := by
  unfold process_arrival
  rw [if_neg h1, if_neg h2]

lemma pa_ack_stale (now : Nat) (st : Receiver × Sender × Channel) (item : InFlight)
    (h1 : item.destination = "Sender" ∧ item.packet.type = "ACK")
    (h2 : item.packet.seq_num < st.2.1.base) :
    process_arrival now st item = st := by
  unfold process_arrival
  rw [if_neg (by simp [h1.2]), if_pos h1, if_neg (by omega)]

lemma pa_ack_adv (now : Nat) (st : Receiver × Sender × Channel) (item : InFlight)
    (h1 : item.destination = "Sender" ∧ item.packet.type = "ACK")
    (h2 : item.packet.seq_num ≥ st.2.1.base) :
    process_arrival now st item =
      (st.1,
       { st.2.1 with
         base := item.packet.seq_num + 1,
         timer_start :=
           if item.packet.seq_num + 1 < st.2.1.next_seq then (now : Int) else -1 },
       st.2.2) := by
  unfold process_arrival
  rw [if_neg (by simp [h1.2]), if_pos h1, if_pos h2]
  by_cases h3 : item.packet.seq_num + 1 < st.2.1.next_seq
  · rw [if_pos h3]
    dsimp only
    rw [if_pos h3]
  · rw [if_neg h3]
    dsimp only
    rw [if_neg h3]

lemma pa_data_accept (now : Nat) (st : Receiver × Sender × Channel) (item : InFlight)
    (h1 : item.destination = "Receiver" ∧ item.packet.type = "DATA")
    (h2 : item.packet.seq_num = st.1.expected_seq) :
    process_arrival now st item =
      ({ st.1 with
         delivered_count := st.1.delivered_count + 1,
         expected_seq := st.1.expected_seq + 1,
         last_ack_sent := (item.packet.seq_num : Int) },
       st.2.1,
       (send_to_network st.2.2 ⟨"ACK", item.packet.seq_num, none⟩ "Sender"
         item.arrival_time 0).1) := by
  unfold process_arrival
  rw [if_pos h1, if_pos h2]

lemma pa_data_dup (now : Nat) (st : Receiver × Sender × Channel) (item : InFlight)
    (h1 : item.destination = "Receiver" ∧ item.packet.type = "DATA")
    (h2 : item.packet.seq_num ≠ st.1.expected_seq)
    (h3 : item.packet.seq_num < st.1.expected_seq) :
    process_arrival now st item = st := by
  unfold process_arrival
  rw [if_pos h1, if_neg h2, if_pos h3]

lemma pa_data_ooo_zero (now : Nat) (st : Receiver × Sender × Channel) (item : InFlight)
    (h1 : item.destination = "Receiver" ∧ item.packet.type = "DATA")
    (h2 : item.packet.seq_num ≠ st.1.expected_seq)
    (h3 : ¬ item.packet.seq_num < st.1.expected_seq)
    (h4 : ¬ 0 < st.1.expected_seq) :
    process_arrival now st item = st := by
  unfold process_arrival
  rw [if_pos h1, if_neg h2, if_neg h3, if_neg h4]

lemma pa_data_ooo_sup (now : Nat) (st : Receiver × Sender × Channel) (item : InFlight)
    (h1 : item.destination = "Receiver" ∧ item.packet.type = "DATA")
    (h2 : item.packet.seq_num ≠ st.1.expected_seq)
    (h3 : ¬ item.packet.seq_num < st.1.expected_seq)
    (h4 : 0 < st.1.expected_seq)
    (h5 : st.1.last_ack_sent = ((st.1.expected_seq - 1 : Nat) : Int)) :
    process_arrival now st item = st := by
  unfold process_arrival
  rw [if_pos h1, if_neg h2, if_neg h3, if_pos h4, if_pos h5]

lemma pa_data_ooo_send (now : Nat) (st : Receiver × Sender × Channel) (item : InFlight)
    (h1 : item.destination = "Receiver" ∧ item.packet.type = "DATA")
    (h2 : item.packet.seq_num ≠ st.1.expected_seq)
    (h3 : ¬ item.packet.seq_num < st.1.expected_seq)
    (h4 : 0 < st.1.expected_seq)
    (h5 : st.1.last_ack_sent ≠ ((st.1.expected_seq - 1 : Nat) : Int)) :
    process_arrival now st item =
      ({ st.1 with last_ack_sent := ((st.1.expected_seq - 1 : Nat) : Int) },
       st.2.1,
       (send_to_network st.2.2 ⟨"ACK", st.1.expected_seq - 1, none⟩ "Sender"
         item.arrival_time 0).1) := by
  unfold process_arrival
  rw [if_pos h1, if_neg h2, if_neg h3, if_pos h4, if_neg h5]

/-- One arrival preserves `StInv` and leaves every sender field except
`base` and `timer_start` (and the channel and receiver as described)
untouched; `base` never decreases. -/
lemma pa_all (now : Nat) (st : Receiver × Sender × Channel) (item : InFlight)
    (hseq : item.packet.seq_num < st.2.1.next_seq) (hst : StInv st) :
    StInv (process_arrival now st item) ∧
    (process_arrival now st item).2.1.window_size = st.2.1.window_size ∧
    (process_arrival now st item).2.1.total_packets = st.2.1.total_packets ∧
    (process_arrival now st item).2.1.timeout = st.2.1.timeout ∧
    (process_arrival now st item).2.1.next_seq = st.2.1.next_seq ∧
    (process_arrival now st item).2.1.buffer = st.2.1.buffer ∧
    (process_arrival now st item).2.1.retransmissions = st.2.1.retransmissions ∧
    (process_arrival now st item).2.1.duplicate_pkts = st.2.1.duplicate_pkts ∧
    st.2.1.base ≤ (process_arrival now st item).2.1.base := by
  obtain ⟨hb, he, hd, ht, hq⟩ := hst
  by_cases h1 : item.destination = "Receiver" ∧ item.packet.type = "DATA"
  · by_cases h2 : item.packet.seq_num = st.1.expected_seq
    · rw [pa_data_accept now st item h1 h2]
      refine ⟨⟨hb, by dsimp only; omega, by dsimp only; omega, ht, ?_⟩,
        rfl, rfl, rfl, rfl, rfl, rfl, rfl, Nat.le_refl _⟩
      intro it hit
      rcases send_queue_mem st.2.2 ⟨"ACK", item.packet.seq_num, none⟩ "Sender"
          item.arrival_time 0 it hit with hmem | hpkt
      · exact hq it hmem
      · rw [hpkt]; exact hseq
    · by_cases h3 : item.packet.seq_num < st.1.expected_seq
      · rw [pa_data_dup now st item h1 h2 h3]
        exact ⟨⟨hb, he, hd, ht, hq⟩, rfl, rfl, rfl, rfl, rfl, rfl, rfl, Nat.le_refl _⟩
      · by_cases h4 : 0 < st.1.expected_seq
        · by_cases h5 : st.1.last_ack_sent = ((st.1.expected_seq - 1 : Nat) : Int)
          · rw [pa_data_ooo_sup now st item h1 h2 h3 h4 h5]
            exact ⟨⟨hb, he, hd, ht, hq⟩, rfl, rfl, rfl, rfl, rfl, rfl, rfl, Nat.le_refl _⟩
          · rw [pa_data_ooo_send now st item h1 h2 h3 h4 h5]
            refine ⟨⟨hb, he, hd, ht, ?_⟩,
              rfl, rfl, rfl, rfl, rfl, rfl, rfl, Nat.le_refl _⟩
            intro it hit
            rcases send_queue_mem st.2.2 ⟨"ACK", st.1.expected_seq - 1, none⟩ "Sender"
                item.arrival_time 0 it hit with hmem | hpkt
            · exact hq it hmem
            · rw [hpkt]; dsimp only; omega
        · rw [pa_data_ooo_zero now st item h1 h2 h3 h4]
          exact ⟨⟨hb, he, hd, ht, hq⟩, rfl, rfl, rfl, rfl, rfl, rfl, rfl, Nat.le_refl _⟩
  · by_cases h6 : item.destination = "Sender" ∧ item.packet.type = "ACK"
    · by_cases h7 : item.packet.seq_num ≥ st.2.1.base
      · rw [pa_ack_adv now st item h6 h7]
        refine ⟨⟨by dsimp only; omega, he, hd, ?_, hq⟩,
          rfl, rfl, rfl, rfl, rfl, rfl, rfl, by dsimp only; omega⟩
        dsimp only
        by_cases h8 : item.packet.seq_num + 1 < st.2.1.next_seq
        · rw [if_pos h8]
          constructor
          · intro hc; omega
          · intro hc; omega
        · rw [if_neg h8]
          constructor
          · intro _; omega
          · intro _; rfl
      · rw [pa_ack_stale now st item h6 (by omega)]
        exact ⟨⟨hb, he, hd, ht, hq⟩, rfl, rfl, rfl, rfl, rfl, rfl, rfl, Nat.le_refl _⟩
    · rw [pa_else now st item h1 h6]
      exact ⟨⟨hb, he, hd, ht, hq⟩, rfl, rfl, rfl, rfl, rfl, rfl, rfl, Nat.le_refl _⟩

/-- Folding the arrival loop over any list of items whose sequence numbers
are below `next_seq` preserves `StInv` and the sender frame. -/
lemma foldl_pa (now : Nat) :
    ∀ (items : List InFlight) (st : Receiver × Sender × Channel),
      (∀ it ∈ items, it.packet.seq_num < st.2.1.next_seq) → StInv st →
      StInv (items.foldl (process_arrival now) st) ∧
      (items.foldl (process_arrival now) st).2.1.window_size = st.2.1.window_size ∧
      (items.foldl (process_arrival now) st).2.1.total_packets = st.2.1.total_packets ∧
      (items.foldl (process_arrival now) st).2.1.timeout = st.2.1.timeout ∧
      (items.foldl (process_arrival now) st).2.1.next_seq = st.2.1.next_seq ∧
      (items.foldl (process_arrival now) st).2.1.buffer = st.2.1.buffer ∧
      (items.foldl (process_arrival now) st).2.1.retransmissions = st.2.1.retransmissions ∧
      (items.foldl (process_arrival now) st).2.1.duplicate_pkts = st.2.1.duplicate_pkts ∧
      st.2.1.base ≤ (items.foldl (process_arrival now) st).2.1.base := by
  intro items
  induction items with
  | nil =>
    intro st _ hst
    exact ⟨hst, rfl, rfl, rfl, rfl, rfl, rfl, rfl, Nat.le_refl _⟩
  | cons it rest ih =>
    intro st hbound hst
    obtain ⟨hst1, hw1, htot1, hto1, hn1, hbuf1, hr1, hdp1, hbase1⟩ :=
      pa_all now st it (hbound it (List.mem_cons_self it rest)) hst
    obtain ⟨hst2, hw2, htot2, hto2, hn2, hbuf2, hr2, hdp2, hbase2⟩ :=
      ih (process_arrival now st it)
        (fun it' hit' => by rw [hn1]; exact hbound it' (List.mem_cons_of_mem _ hit'))
        hst1
    rw [List.foldl_cons]
    exact ⟨hst2, by rw [hw2, hw1], by rw [htot2, htot1], by rw [hto2, hto1],
      by rw [hn2, hn1], by rw [hbuf2, hbuf1], by rw [hr2, hr1],
      by rw [hdp2, hdp1], Nat.le_trans hbase1 hbase2⟩

/-! Invariant preservation through the phases of a tick. -/

lemma fill_inv (now off : Nat) (rcv : Receiver) (ch : Channel) (snd : Sender)
    (h : InvT (rcv, snd, ch)) :
    InvT (rcv, (fill_window now off ch snd).2, (fill_window now off ch snd).1) := by
  obtain ⟨⟨hb, he, hd, ht, hq⟩, htot, hwin, hkeys, hseqs⟩ := h
  dsimp only at hb he hd ht hq htot hwin hkeys hseqs
  obtain ⟨hw', htot', hto', hbase', hr', hdp', hnext', hbuf', hts', hch'⟩ :=
    fill_window_spec now off ch snd hb
  have hmle : snd.next_seq ≤ fillTarget snd := by unfold fillTarget; omega
  have hmtot : fillTarget snd ≤ snd.total_packets := by unfold fillTarget; omega
  have hmwin : fillTarget snd ≤ snd.base + snd.window_size := by unfold fillTarget; omega
  refine ⟨⟨?_, ?_, hd, ?_, ?_⟩, ?_, ?_, ?_, ?_⟩
  · dsimp only; rw [hbase', hnext']; omega
  · dsimp only; rw [hnext']; omega
  · dsimp only
    rw [hts', hnext', hbase']
    split_ifs with hc
    · constructor
      · intro hnow; exact hnow.elim
      · intro hbm; omega
    · constructor
      · intro hts0
        have hbn := ht.mp hts0
        omega
      · intro hbm
        exact ht.mpr (by omega)
  · dsimp only
    intro it hit
    rw [hnext']
    rw [hch'] at hit
    rcases spec_offer_list_mem (5 * now) "Receiver" _ ch it hit with hmem | ⟨po, hpo, hppkt⟩
    · exact Nat.lt_of_lt_of_le (hq it hmem) hmle
    · obtain ⟨i, hi, rfl⟩ := spec_fill_offers_mem _ _ _ po hpo
      rw [hppkt]
      dsimp only
      omega
  · dsimp only; rw [hnext', htot']; exact hmtot
  · dsimp only; rw [hnext', hbase', hw']; exact hmwin
  · dsimp only
    intro k
    rw [hbuf' k, hnext']
    split_ifs with hc
    · simp only [Option.isSome_some, true_iff]
      omega
    · rw [hkeys k]
      constructor
      · intro hlt; omega
      · intro hlt
        by_contra hge
        exact hc ⟨by omega, hlt⟩
  · dsimp only
    intro k p hkp
    rw [hbuf' k] at hkp
    split_ifs at hkp with hc
    · obtain rfl := Option.some.inj hkp
      rfl
    · exact hseqs k p hkp

lemma check_timer_ne (snd : Sender) (now : Nat)
    (hct : check_timer snd now = true) : snd.base ≠ snd.next_seq := by
  intro h0
  rw [check_timer, if_pos h0] at hct
  exact Bool.false_ne_true hct

lemma timeout_inv (now : Nat) (rcv : Receiver) (ch : Channel) (snd : Sender)
    (h : InvT (rcv, snd, ch)) (hct : check_timer snd now = true) :
    ∃ chT sndT, on_timeout now ch snd = some (chT, sndT) ∧
      InvT (rcv, sndT, chT) := by
  obtain ⟨⟨hb, he, hd, ht, hq⟩, htot, hwin, hkeys, hseqs⟩ := h
  dsimp only at hb he hd ht hq htot hwin hkeys hseqs
  have hbn := check_timer_ne snd now hct
  have hcov : ∀ k ∈ List.range' snd.base (snd.next_seq - snd.base),
      (snd.buffer k).isSome := by
    intro k hk
    have hk' := List.mem_range'_1.mp hk
    exact (hkeys k).mpr (by omega)
  unfold on_timeout
  rw [retransmit_spec now _ 0 ch
    { snd with retransmissions := snd.retransmissions + 1, timer_start := (now : Int) }
    hcov]
  refine ⟨_, _, rfl, ⟨⟨hb, he, hd, ?_, ?_⟩, htot, hwin, hkeys, hseqs⟩⟩
  · dsimp only
    constructor
    · intro hnow; exact absurd hnow (by omega)
    · intro hbm; exact absurd hbm hbn
  · dsimp only
    intro it hit
    rcases spec_offer_list_mem (5 * now) "Receiver" _ ch it hit with hmem | ⟨po, hpo, hppkt⟩
    · exact hq it hmem
    · obtain ⟨k, hk, hpk⟩ := spec_burst_offers_mem _ _ _ po hpo
      have hk' := List.mem_range'_1.mp hk
      obtain ⟨p, hp⟩ := Option.isSome_iff_exists.mp ((hkeys k).mpr (by omega))
      rw [hppkt, hpk, hp, Option.getD_some]
      have := hseqs k p hp
      omega

lemma pco_inv (sim : Sim) (h : Inv sim) : Inv (process_channel_only sim) := by
  obtain ⟨⟨hb, he, hd, ht, hq⟩, htot, hwin, hkeys, hseqs⟩ := h
  dsimp only at hb he hd ht hq htot hwin hkeys hseqs
  have hbound : ∀ it ∈ sim.channel.packet_queue.filter
      (fun item => 5 * sim.current_time ≥ item.arrival_time),
      it.packet.seq_num < sim.sender.next_seq :=
    fun it hit => hq it (List.mem_of_mem_filter hit)
  have hkeep : ∀ it ∈ sim.channel.packet_queue.filter
      (fun item => ¬ 5 * sim.current_time ≥ item.arrival_time),
      it.packet.seq_num < sim.sender.next_seq :=
    fun it hit => hq it (List.mem_of_mem_filter hit)
  obtain ⟨⟨hb', he', hd', ht', hq'⟩, hw', htot', hto', hn', hbuf', hr', hdp', hbase'⟩ :=
    foldl_pa sim.current_time
      (sim.channel.packet_queue.filter (fun item => 5 * sim.current_time ≥ item.arrival_time))
      (sim.receiver, sim.sender,
        { sim.channel with packet_queue :=
            sim.channel.packet_queue.filter (fun item => ¬ 5 * sim.current_time ≥ item.arrival_time) })
      hbound ⟨hb, he, hd, ht, hkeep⟩
  unfold process_channel_only get_delivered_packets
  refine ⟨⟨hb', he', hd', ht', hq'⟩, ?_, ?_, ?_, ?_⟩
  · dsimp only
    rw [hn', htot']
    exact htot
  · dsimp only
    rw [hn', hw']
    exact Nat.le_trans hwin (Nat.add_le_add_right hbase' _)
  · dsimp only
    intro k
    rw [hbuf', hn']
    exact hkeys k
  · dsimp only
    intro k p hkp
    rw [hbuf'] at hkp
    exact hseqs k p hkp

lemma start_inv (c : Config) : Inv (start_sim c) := by
  unfold Inv InvT StInv start_sim
  refine ⟨⟨Nat.le_refl 0, Nat.le_refl 0, rfl, by simp, ?_⟩,
    Nat.zero_le _, Nat.zero_le _, ?_, ?_⟩
  · intro it hit
    simp at hit
  · intro k
    simp
  · intro k p hkp
    simp at hkp

lemma tick_inv (s s' : Sim) (h : Inv s) (ht : simulation_tick s = some s') :
    Inv s' := by
  unfold simulation_tick at ht
  by_cases hfin : s.sender.base = s.sender.total_packets
  · rw [if_pos hfin] at ht
    obtain rfl := Option.some.inj ht
    by_cases hf2 : s.is_finishing
    · simp only [hf2, not_true_eq_false, if_neg] at *
      exact pco_inv s h
    · simp only [hf2, not_false_eq_true, if_pos]
      exact pco_inv { s with is_finishing := true } h
  · rw [if_neg hfin] at ht
    by_cases hct : check_timer s.sender s.current_time
    · rw [if_pos hct] at ht
      obtain ⟨chT, sndT, hsome, hInvT⟩ :=
        timeout_inv s.current_time s.receiver s.channel s.sender h hct
      rw [hsome] at ht
      dsimp only at ht
      obtain rfl := Option.some.inj ht
      exact pco_inv _ (fill_inv s.current_time 0 s.receiver chT sndT hInvT)
    · rw [if_neg hct] at ht
      dsimp only at ht
      obtain rfl := Option.some.inj ht
      exact pco_inv _ (fill_inv s.current_time 0 s.receiver s.channel s.sender h)

lemma run_inv (c : Config) : ∀ n s, run c n = some s → Inv s := by
  intro n
  induction n with
  | zero =>
    intro s h
    obtain rfl := Option.some.inj h
    exact start_inv c
  | succ m ih =>
    intro s h
    unfold run at h
    cases hr : run c m with
    | none => rw [hr] at h; exact absurd h (by simp)
    | some s0 =>
      rw [hr, Option.some_bind] at h
      exact tick_inv s0 s (ih s0 hr) h

/-! One-shot loss: behaviour of a sequence of offers with respect to the
loss lists. -/

lemma send_status_match (kind : String) (hk : kind = "DATA" ∨ kind = "ACK")
    (ch : Channel) (p : Packet) (d : String) (t o : Nat) (hmatch : p.type = kind) :
    (p.seq_num ∈ loss_of kind ch →
      (send_to_network ch p d t o).2 = "DROP" ∧
      loss_of kind (send_to_network ch p d t o).1 = (loss_of kind ch).erase p.seq_num) ∧
    (p.seq_num ∉ loss_of kind ch →
      (send_to_network ch p d t o).2 = "SENT" ∧
      loss_of kind (send_to_network ch p d t o).1 = loss_of kind ch) := by
  rcases hk with hk | hk <;> subst hk
  · constructor
    · intro hmem
      have hm : p.seq_num ∈ ch.loss_data := by simpa [loss_of] using hmem
      simp [send_to_network, loss_of, hmatch, hm]
    · intro hmem
      have hm : p.seq_num ∉ ch.loss_data := by simpa [loss_of] using hmem
      simp [send_to_network, loss_of, hmatch, hm]
  · constructor
    · intro hmem
      have hm : p.seq_num ∈ ch.loss_ack := by simpa [loss_of] using hmem
      simp [send_to_network, loss_of, hmatch, hm]
    · intro hmem
      have hm : p.seq_num ∉ ch.loss_ack := by simpa [loss_of] using hmem
      simp [send_to_network, loss_of, hmatch, hm]

lemma send_loss_sub (kind : String) (ch : Channel) (p : Packet) (d : String)
    (t o : Nat) :
    loss_of kind (send_to_network ch p d t o).1 = loss_of kind ch ∨
    ∃ a, loss_of kind (send_to_network ch p d t o).1 = (loss_of kind ch).erase a := by
  unfold send_to_network loss_of
  dsimp only
  split_ifs <;> first | exact Or.inl rfl | exact Or.inr ⟨_, rfl⟩

lemma send_loss_not_mem (kind : String) (ch : Channel) (p : Packet) (d : String)
    (t o : Nat) (seq : Nat) (h : seq ∉ loss_of kind ch) :
    seq ∉ loss_of kind (send_to_network ch p d t o).1 := by
  rcases send_loss_sub kind ch p d t o with heq | ⟨a, heq⟩
  · rw [heq]; exact h
  · rw [heq]
    intro hm
    exact h ((List.erase_sublist a (loss_of kind ch)).subset hm)

lemma loss_of_data (ch : Channel) : loss_of "DATA" ch = ch.loss_data := rfl

lemma loss_of_ack (ch : Channel) : loss_of "ACK" ch = ch.loss_ack := rfl

lemma send_count_nonmatch_data (ch : Channel) (p : Packet) (d : String)
    (t o : Nat) (seq : Nat) (hnm : ¬ (p.type = "DATA" ∧ p.seq_num = seq)) :
    (loss_of "DATA" (send_to_network ch p d t o).1).count seq =
      (loss_of "DATA" ch).count seq := by
  simp only [loss_of_data]
  by_cases h1 : p.type = "DATA"
  · by_cases h2 : p.seq_num ∈ ch.loss_data
    · unfold send_to_network
      rw [if_pos h1, if_pos h2]
      exact List.count_erase_of_ne (fun he => hnm ⟨h1, he.symm⟩) _
    · unfold send_to_network
      rw [if_pos h1, if_neg h2]
      all_goals rfl
  · by_cases h3 : p.type = "ACK"
    · by_cases h4 : p.seq_num ∈ ch.loss_ack
      · unfold send_to_network
        rw [if_neg h1, if_pos h3, if_pos h4]
        all_goals rfl
      · unfold send_to_network
        rw [if_neg h1, if_pos h3, if_neg h4]
        all_goals rfl
    · unfold send_to_network
      rw [if_neg h1, if_neg h3]
      all_goals rfl

lemma send_count_nonmatch_ack (ch : Channel) (p : Packet) (d : String)
    (t o : Nat) (seq : Nat) (hnm : ¬ (p.type = "ACK" ∧ p.seq_num = seq)) :
    (loss_of "ACK" (send_to_network ch p d t o).1).count seq =
      (loss_of "ACK" ch).count seq := by
  simp only [loss_of_ack]
  by_cases h1 : p.type = "DATA"
  · by_cases h2 : p.seq_num ∈ ch.loss_data
    · unfold send_to_network
      rw [if_pos h1, if_pos h2]
      all_goals rfl
    · unfold send_to_network
      rw [if_pos h1, if_neg h2]
      all_goals rfl
  · by_cases h3 : p.type = "ACK"
    · by_cases h4 : p.seq_num ∈ ch.loss_ack
      · unfold send_to_network
        rw [if_neg h1, if_pos h3, if_pos h4]
        exact List.count_erase_of_ne (fun he => hnm ⟨h3, he.symm⟩) _
      · unfold send_to_network
        rw [if_neg h1, if_pos h3, if_neg h4]
        all_goals rfl
    · unfold send_to_network
      rw [if_neg h1, if_neg h3]
      all_goals rfl

lemma matches_count_cons_pos (kind : String) (seq : Nat) (r : Offer)
    (rest : List Offer) (h : r.packet.type = kind ∧ r.packet.seq_num = seq) :
    matches_count kind seq (r :: rest) = matches_count kind seq rest + 1 := by
  unfold matches_count
  rw [List.filter_cons_of_pos (by simp [h.1, h.2])]
  rfl

lemma matches_count_cons_neg (kind : String) (seq : Nat) (r : Offer)
    (rest : List Offer) (h : ¬ (r.packet.type = kind ∧ r.packet.seq_num = seq)) :
    matches_count kind seq (r :: rest) = matches_count kind seq rest := by
  unfold matches_count
  rw [List.filter_cons_of_neg (by simpa using h)]

lemma statuses_sent (kind : String) (hk : kind = "DATA" ∨ kind = "ACK") (seq : Nat) :
    ∀ (reqs : List Offer) (ch : Channel), seq ∉ loss_of kind ch →
      statuses_for kind seq reqs ch =
        List.replicate (matches_count kind seq reqs) "SENT" := by
  intro reqs
  induction reqs with
  | nil => intro ch _; rfl
  | cons r rest ih =>
    intro ch hnm
    by_cases hc : r.packet.type = kind ∧ r.packet.seq_num = seq
    · have hsm := (send_status_match kind hk ch r.packet r.destination r.time
        r.offset hc.1).2 (by rw [hc.2]; exact hnm)
      rw [statuses_for, if_pos hc, hsm.1, matches_count_cons_pos kind seq r rest hc]
      rw [List.replicate_succ]
      have hnm' : seq ∉ loss_of kind
          (send_to_network ch r.packet r.destination r.time r.offset).1 := by
        rw [hsm.2]; exact hnm
      rw [ih _ hnm']
    · rw [statuses_for, if_neg hc, matches_count_cons_neg kind seq r rest hc]
      exact ih _ (send_loss_not_mem kind ch r.packet r.destination r.time r.offset seq hnm)

lemma statuses_one_drop (kind : String) (hk : kind = "DATA" ∨ kind = "ACK") (seq : Nat) :
    ∀ (reqs : List Offer) (ch : Channel), (loss_of kind ch).count seq = 1 →
      statuses_for kind seq reqs ch =
        (if matches_count kind seq reqs = 0 then []
         else "DROP" :: List.replicate (matches_count kind seq reqs - 1) "SENT") := by
  intro reqs
  induction reqs with
  | nil => intro ch _; rfl
  | cons r rest ih =>
    intro ch hcount
    by_cases hc : r.packet.type = kind ∧ r.packet.seq_num = seq
    · have hmem : r.packet.seq_num ∈ loss_of kind ch := by
        rw [hc.2]
        exact List.count_pos_iff.mp (by omega)
      have hsm := (send_status_match kind hk ch r.packet r.destination r.time
        r.offset hc.1).1 hmem
      have hzero : seq ∉ loss_of kind
          (send_to_network ch r.packet r.destination r.time r.offset).1 := by
        rw [← List.count_eq_zero, hsm.2, hc.2, List.count_erase_self]
        omega
      rw [statuses_for, if_pos hc, hsm.1,
        statuses_sent kind hk seq rest _ hzero,
        matches_count_cons_pos kind seq r rest hc]
      rw [if_neg (by omega)]
      simp
    · have hcount' : (loss_of kind
          (send_to_network ch r.packet r.destination r.time r.offset).1).count seq = 1 := by
        rcases hk with hk | hk <;> subst hk
        · rw [send_count_nonmatch_data ch r.packet r.destination r.time r.offset seq hc]
          exact hcount
        · rw [send_count_nonmatch_ack ch r.packet r.destination r.time r.offset seq hc]
          exact hcount
      rw [statuses_for, if_neg hc, matches_count_cons_neg kind seq r rest hc]
      exact ih _ hcount'

lemma spec_fill_offers_snd :
    ∀ (n start off : Nat),
      (spec_fill_offers start n off).map Prod.snd = List.range' off n := by
  intro n
  induction n with
  | zero => intro start off; rfl
  | succ m ih =>
    intro start off
    rw [spec_fill_offers, List.range'_succ]
    simp [ih]

/-! The claims. -/

/-- C1: for every ACK packet processed by the sender at time `now`: if its
sequence number is at least `base`, then `base` is set to `seq + 1`
(possibly advancing past several unacknowledged packets at once); afterwards
the timer is reset to `now` if `base < nextSeq` and cleared otherwise, and
the receiver and channel are untouched; a stale ACK (`seq < base`) leaves
the whole state unchanged. -/
theorem claim_C1_cumulative_ack (now : Nat) (st : Receiver × Sender × Channel)
    (item : InFlight) (hdest : item.destination = "Sender")
    (htype : item.packet.type = "ACK") :
    (item.packet.seq_num ≥ st.2.1.base →
      (process_arrival now st item).2.1.base = item.packet.seq_num + 1 ∧
      ((process_arrival now st item).2.1.base < st.2.1.next_seq →
        (process_arrival now st item).2.1.timer_start = (now : Int)) ∧
      (¬ (process_arrival now st item).2.1.base < st.2.1.next_seq →
        (process_arrival now st item).2.1.timer_start = -1) ∧
      (process_arrival now st item).1 = st.1 ∧
      (process_arrival now st item).2.2 = st.2.2) ∧
    (item.packet.seq_num < st.2.1.base →
      process_arrival now st item = st) := by
  constructor
  · intro hge
    rw [pa_ack_adv now st item ⟨hdest, htype⟩ hge]
    dsimp only
    refine ⟨rfl, ?_, ?_, rfl, rfl⟩
    · intro hlt
      rw [if_pos hlt]
    · intro hnlt
      rw [if_neg hnlt]
  · intro hlt
    exact pa_ack_stale now st item ⟨hdest, htype⟩ hlt

/-- Witness for C1 at a concrete state: a cumulative ACK 2 with `base = 1`,
`nextSeq = 3` advances `base` to 3 and clears the timer. -/
theorem claim_C1_witness :
    (process_arrival 7
        (⟨0, 0, -1⟩, ⟨8, 10, 5, 1, 3, (fun _ => none), 0, 0, 0⟩, ⟨[], [], 5, []⟩)
        ⟨10, ⟨"ACK", 2, none⟩, "Sender", 5⟩).2.1.base = 3 ∧
    (process_arrival 7
        (⟨0, 0, -1⟩, ⟨8, 10, 5, 1, 3, (fun _ => none), 0, 0, 0⟩, ⟨[], [], 5, []⟩)
        ⟨10, ⟨"ACK", 2, none⟩, "Sender", 5⟩).2.1.timer_start = -1 := by
  have h := (claim_C1_cumulative_ack 7
    (⟨0, 0, -1⟩, ⟨8, 10, 5, 1, 3, (fun _ => none), 0, 0, 0⟩, ⟨[], [], 5, []⟩)
    ⟨10, ⟨"ACK", 2, none⟩, "Sender", 5⟩ rfl rfl).1 (by decide)
  exact ⟨h.1, h.2.2.1 (by decide)⟩

/-- C2: a timeout event (`check_timer` true) re-offers the buffered packet
of every sequence number in `[base, nextSeq)` exactly once, in order, with
burst offsets `0, 1, 2, …` (fifths of a second, i.e. `0, Δ, 2Δ, …`);
`retransmissions` grows by exactly 1 for the whole event, `duplicate_pkts`
by exactly one per packet resent, and `timer_start` is reset to `now`. -/
theorem claim_C2_timeout_retransmits_window (now : Nat) (ch : Channel)
    (snd : Sender) (_hct : check_timer snd now = true)
    (hcov : ∀ k, snd.base ≤ k → k < snd.next_seq → (snd.buffer k).isSome) :
    on_timeout now ch snd =
      some (spec_offer_list (5 * now) "Receiver"
              (spec_burst_offers snd.buffer 0
                (List.range' snd.base (snd.next_seq - snd.base))) ch,
            { snd with
              retransmissions := snd.retransmissions + 1,
              timer_start := (now : Int),
              duplicate_pkts := snd.duplicate_pkts + (snd.next_seq - snd.base) }) ∧
    (spec_burst_offers snd.buffer 0
        (List.range' snd.base (snd.next_seq - snd.base))).map Prod.snd =
      List.range' 0 (snd.next_seq - snd.base) := by
  constructor
  · unfold on_timeout
    rw [retransmit_spec now _ 0 ch
      { snd with retransmissions := snd.retransmissions + 1, timer_start := (now : Int) }
      (by
        intro k hk
        have hk' : snd.base ≤ k ∧ k < snd.base + (snd.next_seq - snd.base) :=
          List.mem_range'_1.mp hk
        exact hcov k (by omega) (by omega))]
    rw [List.length_range']
  · rw [spec_burst_offers_snd, List.length_range']

/-- Witness for C2 at a concrete sender: `base = 0`, `nextSeq = 2`,
an expired timer; the event bumps `retransmissions` to 1, `duplicate_pkts`
to 2, resets the timer, and enqueues both buffered packets. -/
theorem claim_C2_witness :
    (on_timeout 1 ⟨[], [], 5, []⟩
        ⟨4, 5, 1, 0, 2, (fun k => if k < 2 then some ⟨"DATA", k, none⟩ else none),
          0, 0, 0⟩).map
      (fun p => (p.2.retransmissions, p.2.duplicate_pkts, p.2.timer_start,
                 p.1.packet_queue.length)) = some (1, 2, 1, 2) := by
  have h := claim_C2_timeout_retransmits_window 1 ⟨[], [], 5, []⟩
    ⟨4, 5, 1, 0, 2, (fun k => if k < 2 then some ⟨"DATA", k, none⟩ else none),
      0, 0, 0⟩ (by decide)
    (by
      intro k h1 h2
      dsimp only
      rw [if_pos h2]
      rfl)
  rw [h.1]
  rfl

/-- C3: every state reachable by the driver from a validated configuration
satisfies `0 ≤ base ≤ nextSeq ≤ totalPackets` and
`nextSeq - base ≤ windowSize`. -/
theorem claim_C3_window_invariant (c : Config)
    (_hval : 0 < c.total_packets ∧ 0 < c.window_size ∧ 0 < c.timeout)
    (n : Nat) (s : Sim) (h : run c n = some s) :
    0 ≤ s.sender.base ∧ s.sender.base ≤ s.sender.next_seq ∧
    s.sender.next_seq ≤ s.sender.total_packets ∧
    s.sender.next_seq - s.sender.base ≤ s.sender.window_size := by
  obtain ⟨⟨hb, _, _, _, _⟩, htot, hwin, _, _⟩ := run_inv c n s h
  dsimp only at hb htot hwin
  exact ⟨Nat.zero_le _, hb, htot, by omega⟩

/-- Witness for C3: the invariant holds at the initial state of a concrete
validated run. -/
theorem claim_C3_witness :
    (0 : Nat) < 2 ∧
    (start_sim ⟨2, 1, 5, 0, [], []⟩).sender.base ≤
      (start_sim ⟨2, 1, 5, 0, [], []⟩).sender.next_seq :=
  ⟨by decide,
   (claim_C3_window_invariant ⟨2, 1, 5, 0, [], []⟩
     ⟨by decide, by decide, by decide⟩ 0 _ rfl).2.1⟩

/-- C4: a sequence number whose count in the matching loss list is exactly
one is dropped on exactly the first offer of that kind bearing it —
original transmission or retransmission — and every later such offer
returns SENT; a SENT offer is enqueued with its computed send and arrival
times. -/
theorem claim_C4_one_shot_loss (seq : Nat) (reqs : List Offer) (ch : Channel) :
    (ch.loss_data.count seq = 1 →
      statuses_for "DATA" seq reqs ch =
        (if matches_count "DATA" seq reqs = 0 then []
         else "DROP" :: List.replicate (matches_count "DATA" seq reqs - 1) "SENT")) ∧
    (ch.loss_ack.count seq = 1 →
      statuses_for "ACK" seq reqs ch =
        (if matches_count "ACK" seq reqs = 0 then []
         else "DROP" :: List.replicate (matches_count "ACK" seq reqs - 1) "SENT")) ∧
    (∀ (p : Packet) (d : String) (t o : Nat),
      (send_to_network ch p d t o).2 = "SENT" →
      (send_to_network ch p d t o).1.packet_queue =
        ch.packet_queue ++ [⟨t + o + ch.delay, p, d, t + o⟩]) := by
  refine ⟨?_, ?_, fun p d t o h => send_sent_queue ch p d t o h⟩
  · intro h
    exact statuses_one_drop "DATA" (Or.inl rfl) seq reqs ch
      (by rw [loss_of_data]; exact h)
  · intro h
    exact statuses_one_drop "ACK" (Or.inr rfl) seq reqs ch
      (by rw [loss_of_ack]; exact h)

/-- Witness for C4: with `lossData = [0]`, three DATA offers of sequence 0
return DROP, SENT, SENT. -/
theorem claim_C4_witness :
    statuses_for "DATA" 0
      [⟨⟨"DATA", 0, none⟩, "Receiver", 0, 0⟩,
       ⟨⟨"DATA", 0, none⟩, "Receiver", 5, 0⟩,
       ⟨⟨"DATA", 0, none⟩, "Receiver", 10, 0⟩] ⟨[0], [], 5, []⟩ =
      ["DROP", "SENT", "SENT"] := by
  have h := (claim_C4_one_shot_loss 0
    [⟨⟨"DATA", 0, none⟩, "Receiver", 0, 0⟩,
     ⟨⟨"DATA", 0, none⟩, "Receiver", 5, 0⟩,
     ⟨⟨"DATA", 0, none⟩, "Receiver", 10, 0⟩] ⟨[0], [], 5, []⟩).1 (by decide)
  rw [h]
  decide

/-- C5 counterexample: the buffer's key set is NOT `[base, nextSeq)`.
After three ticks of the run with `totalPackets = 2`, `windowSize = 1`,
`timeout = 5`, `delay = 0` and no losses, `base = 1` and `nextSeq = 2`,
yet the buffer still holds key 0 (acknowledged packets are never evicted). -/
theorem claim_C5_counterexample :
    ((run ⟨2, 1, 5, 0, [], []⟩ 3).map
      (fun s => (s.sender.base, s.sender.next_seq, (s.sender.buffer 0).isSome))) =
      some (1, 2, true) := by
  decide

/-- C5 (amended): at every tick the buffer keys are exactly `[0, nextSeq)`
— in particular they include all of `[base, nextSeq)` — and the
retransmission timer is active (`timer_start ≠ -1`) iff `base ≠ nextSeq`. -/
theorem claim_C5_amended_buffer_timer (c : Config)
    (_hval : 0 < c.total_packets ∧ 0 < c.window_size ∧ 0 < c.timeout)
    (n : Nat) (s : Sim) (h : run c n = some s) :
    (∀ k, (s.sender.buffer k).isSome ↔ k < s.sender.next_seq) ∧
    (∀ k, s.sender.base ≤ k → k < s.sender.next_seq → (s.sender.buffer k).isSome) ∧
    (s.sender.timer_start ≠ -1 ↔ s.sender.base ≠ s.sender.next_seq) := by
  obtain ⟨⟨_, _, _, ht, _⟩, _, _, hkeys, _⟩ := run_inv c n s h
  dsimp only at ht hkeys
  exact ⟨hkeys, fun k _ hk => (hkeys k).mpr hk, not_congr ht⟩

/-- Witness for C5 (amended) at the initial state of a concrete run:
key 5 is absent and the timer is off. -/
theorem claim_C5_witness :
    (0 : Nat) < 2 ∧
    (((start_sim ⟨2, 1, 5, 0, [], []⟩).sender.buffer 5).isSome ↔
      5 < (start_sim ⟨2, 1, 5, 0, [], []⟩).sender.next_seq) :=
  ⟨by decide,
   (claim_C5_amended_buffer_timer ⟨2, 1, 5, 0, [], []⟩
     ⟨by decide, by decide, by decide⟩ 0 _ rfl).1 5⟩

/-- C6: whenever the sender can send, the fill-window step sends DATA
packets for all of `[nextSeq, min (base + windowSize) totalPackets)`:
`nextSeq` moves to that bound, `base` is unchanged, each new packet is
stored in the buffer under its sequence number, the timer starts at `now`
exactly when the window was empty (`base = nextSeq`) and a packet is
actually sent, and the packets are offered to the channel in order with
incrementing burst offsets `0, 1, 2, …`. -/
theorem claim_C6_fill_window (now : Nat) (ch : Channel) (snd : Sender)
    (hb : snd.base ≤ snd.next_seq) :
    (fill_window now 0 ch snd).2.next_seq =
      max snd.next_seq (min (snd.base + snd.window_size) snd.total_packets) ∧
    (fill_window now 0 ch snd).2.base = snd.base ∧
    (∀ k, (fill_window now 0 ch snd).2.buffer k =
      (if snd.next_seq ≤ k ∧ k < fillTarget snd then
        some ⟨"DATA", k, payload_of k⟩
      else snd.buffer k)) ∧
    (fill_window now 0 ch snd).2.timer_start =
      (if snd.base = snd.next_seq ∧ snd.next_seq < fillTarget snd then (now : Int)
       else snd.timer_start) ∧
    (fill_window now 0 ch snd).1 =
      spec_offer_list (5 * now) "Receiver"
        (spec_fill_offers snd.next_seq (fillTarget snd - snd.next_seq) 0) ch ∧
    (spec_fill_offers snd.next_seq (fillTarget snd - snd.next_seq) 0).map Prod.snd =
      List.range' 0 (fillTarget snd - snd.next_seq) := by
  obtain ⟨_, _, _, hbase', _, _, hnext', hbuf', hts', hch'⟩ :=
    fill_window_spec now 0 ch snd hb
  exact ⟨hnext', hbase', hbuf', hts', hch', spec_fill_offers_snd _ _ _⟩

/-- Witness for C6 at a concrete sender (`base = nextSeq = 0`,
`windowSize = 2`, `totalPackets = 3`): `nextSeq` moves to 2 and the timer
starts. -/
theorem claim_C6_witness :
    (fill_window 0 0 ⟨[], [], 5, []⟩
      ⟨2, 3, 5, 0, 0, (fun _ => none), -1, 0, 0⟩).2.next_seq = 2 ∧
    (fill_window 0 0 ⟨[], [], 5, []⟩
      ⟨2, 3, 5, 0, 0, (fun _ => none), -1, 0, 0⟩).2.timer_start = 0 := by
  have h := claim_C6_fill_window 0 ⟨[], [], 5, []⟩
    ⟨2, 3, 5, 0, 0, (fun _ => none), -1, 0, 0⟩ (by decide)
  refine ⟨h.1.trans (by decide), (h.2.2.2.1).trans (by decide)⟩

/-- C7: a DATA packet with `seq > expectedSeq` is discarded (receiver
counters unchanged); if `expectedSeq > 0` and `lastAckSent` already equals
`expectedSeq - 1` the duplicate ACK is suppressed (state unchanged),
otherwise `lastAckSent` is set to `expectedSeq - 1` and an ACK for it is
offered to the channel anchored at the packet's arrival time; if
`expectedSeq = 0` nothing is sent. -/
theorem claim_C7_out_of_order (now : Nat) (st : Receiver × Sender × Channel)
    (item : InFlight) (hdest : item.destination = "Receiver")
    (htype : item.packet.type = "DATA")
    (hgt : item.packet.seq_num > st.1.expected_seq) :
    ((process_arrival now st item).1.expected_seq = st.1.expected_seq ∧
     (process_arrival now st item).1.delivered_count = st.1.delivered_count) ∧
    (0 < st.1.expected_seq →
      (st.1.last_ack_sent = ((st.1.expected_seq - 1 : Nat) : Int) →
        process_arrival now st item = st) ∧
      (st.1.last_ack_sent ≠ ((st.1.expected_seq - 1 : Nat) : Int) →
        (process_arrival now st item).1.last_ack_sent =
          ((st.1.expected_seq - 1 : Nat) : Int) ∧
        (process_arrival now st item).2.2 =
          (send_to_network st.2.2 ⟨"ACK", st.1.expected_seq - 1, none⟩ "Sender"
            item.arrival_time 0).1)) ∧
    (st.1.expected_seq = 0 → process_arrival now st item = st) := by
  have hne : item.packet.seq_num ≠ st.1.expected_seq := by omega
  have hnlt : ¬ item.packet.seq_num < st.1.expected_seq := by omega
  refine ⟨?_, ?_, ?_⟩
  · by_cases h4 : 0 < st.1.expected_seq
    · by_cases h5 : st.1.last_ack_sent = ((st.1.expected_seq - 1 : Nat) : Int)
      · rw [pa_data_ooo_sup now st item ⟨hdest, htype⟩ hne hnlt h4 h5]
        exact ⟨rfl, rfl⟩
      · rw [pa_data_ooo_send now st item ⟨hdest, htype⟩ hne hnlt h4 h5]
        exact ⟨rfl, rfl⟩
    · rw [pa_data_ooo_zero now st item ⟨hdest, htype⟩ hne hnlt h4]
      exact ⟨rfl, rfl⟩
  · intro h4
    constructor
    · intro h5
      exact pa_data_ooo_sup now st item ⟨hdest, htype⟩ hne hnlt h4 h5
    · intro h5
      rw [pa_data_ooo_send now st item ⟨hdest, htype⟩ hne hnlt h4 h5]
      exact ⟨rfl, rfl⟩
  · intro h0
    exact pa_data_ooo_zero now st item ⟨hdest, htype⟩ hne hnlt (by omega)

/-- Witness for C7 at a concrete state: `expectedSeq = 2`,
`lastAckSent = 0`, an out-of-order DATA 5 re-sends ACK 1. -/
theorem claim_C7_witness :
    (process_arrival 7
        (⟨2, 2, 0⟩, ⟨8, 10, 5, 0, 2, (fun _ => none), 0, 0, 0⟩, ⟨[], [], 5, []⟩)
        ⟨10, ⟨"DATA", 5, none⟩, "Receiver", 5⟩).1.last_ack_sent = 1 := by
  have h := ((claim_C7_out_of_order 7
    (⟨2, 2, 0⟩, ⟨8, 10, 5, 0, 2, (fun _ => none), 0, 0, 0⟩, ⟨[], [], 5, []⟩)
    ⟨10, ⟨"DATA", 5, none⟩, "Receiver", 5⟩ rfl rfl (by decide)).2.1
    (by decide)).2 (by decide)
  exact h.1

/-- C8: a DATA packet with `seq < expectedSeq` (an already-delivered
duplicate) is discarded silently: the whole `(receiver, sender, channel)`
state is unchanged, so no ACK is sent or resent. -/
theorem claim_C8_duplicate_silent (now : Nat) (st : Receiver × Sender × Channel)
    (item : InFlight) (hdest : item.destination = "Receiver")
    (htype : item.packet.type = "DATA")
    (hlt : item.packet.seq_num < st.1.expected_seq) :
    process_arrival now st item = st :=
  pa_data_dup now st item ⟨hdest, htype⟩ (by omega) hlt

/-- Witness for C8 at a concrete state: a duplicate DATA 0 with
`expectedSeq = 2` leaves the state unchanged. -/
theorem claim_C8_witness :
    process_arrival 7
        (⟨2, 2, 1⟩, ⟨8, 10, 5, 0, 2, (fun _ => none), 0, 0, 0⟩, ⟨[], [], 5, []⟩)
        ⟨10, ⟨"DATA", 0, none⟩, "Receiver", 5⟩ =
      (⟨2, 2, 1⟩, ⟨8, 10, 5, 0, 2, (fun _ => none), 0, 0, 0⟩, ⟨[], [], 5, []⟩) :=
  claim_C8_duplicate_silent 7
    (⟨2, 2, 1⟩, ⟨8, 10, 5, 0, 2, (fun _ => none), 0, 0, 0⟩, ⟨[], [], 5, []⟩)
    ⟨10, ⟨"DATA", 0, none⟩, "Receiver", 5⟩ rfl rfl (by decide)

/-- C9 counterexample: in the run `totalPackets = 3`, `windowSize = 3`,
`delay = 1`, `timeout = 3`, `lossAck = [0]`, the sender's `base` never
takes the value 1: it stays 0 up to the timeout tick and jumps straight to
3 there (cumulative ACK 1 then ACK 2 arrive during that same tick), so the
claim that `base` advances to 1 only after a retransmitted ACK 0 succeeds
is false. -/
theorem claim_C9_counterexample :
    ((List.range 9).map
      (fun n => (run ⟨3, 3, 3, 1, [], [0]⟩ n).map (fun s => s.sender.base))) =
      [some 0, some 0, some 0, some 0, some 3, some 3, some 3, some 3, some 3] := by
  decide

/-- C9 (amended): in Scenario C, ACK 0 is dropped (the loss entry is
consumed by tick 2) while DATA 0 is delivered; `base` is still 0 after
tick 3; the timeout fires at tick 3 (`retransmissions = 1`) and `base`
jumps directly from 0 to 3 during that same tick via cumulative ACKs 1 and
2; the retransmitted DATA 0 arrives at tick 4 and is ignored as a
duplicate with no ACK resent (the receiver state is unchanged and the
queue only shrinks); the run finishes with `base = 3`. -/
theorem claim_C9_amended_scenario :
    ((run ⟨3, 3, 3, 1, [], [0]⟩ 2).map (fun s => s.channel.loss_ack)) = some [] ∧
    ((run ⟨3, 3, 3, 1, [], [0]⟩ 2).map
      (fun s => (s.receiver.expected_seq, s.receiver.delivered_count))) = some (1, 1) ∧
    ((run ⟨3, 3, 3, 1, [], [0]⟩ 3).map (fun s => s.sender.base)) = some 0 ∧
    ((run ⟨3, 3, 3, 1, [], [0]⟩ 4).map
      (fun s => (s.sender.base, s.sender.retransmissions,
                 s.channel.packet_queue.length))) = some (3, 1, 3) ∧
    ((run ⟨3, 3, 3, 1, [], [0]⟩ 5).map
      (fun s => (s.receiver.expected_seq, s.receiver.delivered_count,
                 s.receiver.last_ack_sent, s.channel.packet_queue.length))) =
      some (3, 3, 2, 2) ∧
    ((run ⟨3, 3, 3, 1, [], [0]⟩ 8).map
      (fun s => (s.sender.base, s.is_finishing))) = some (3, true) := by
  refine ⟨by decide, by decide, by decide, by decide, by decide, by decide⟩

/-- C10: at every reachable state of every validated run,
`deliveredCount = expectedSeq`: both start at 0 and are only ever
incremented together when an in-order DATA packet is accepted. -/
theorem claim_C10_delivered_eq_expected (c : Config)
    (_hval : 0 < c.total_packets ∧ 0 < c.window_size ∧ 0 < c.timeout)
    (n : Nat) (s : Sim) (h : run c n = some s) :
    s.receiver.delivered_count = s.receiver.expected_seq := by
  have hd := (run_inv c n s h).1.2.2.1
  dsimp only at hd
  exact hd

/-- Witness for C10 at the initial state of a concrete run. -/
theorem claim_C10_witness :
    (0 : Nat) < 2 ∧
    (start_sim ⟨2, 1, 5, 0, [], []⟩).receiver.delivered_count =
      (start_sim ⟨2, 1, 5, 0, [], []⟩).receiver.expected_seq :=
  ⟨by decide,
   claim_C10_delivered_eq_expected ⟨2, 1, 5, 0, [], []⟩
     ⟨by decide, by decide, by decide⟩ 0 _ rfl⟩

end GBN
